import Mathlib

/-!
Verification of the dispatch / rate-limiting core of `src/main.py`
(a Telegram front-end routing prompts to an upstream AI API).

Shallow embedding conventions:
* `time.time()` values are modelled as rationals (`ℚ`), seconds since epoch.
* Python dicts with `defaultdict(int)` semantics are modelled as total
  functions returning `0` by default; plain dicts as `Option`-valued
  functions or association lists.
* The global `user_roles` dict is passed explicitly as an association list.
* The per-user entry of the global `user_request_times` dict is passed in
  and returned explicitly (the functions below are the body of the Python
  functions specialised to one user's list).
-/

namespace Samurai

/-- User roles: the values `"admin"`, `"premium"`, `"standard"` appearing in
`user_roles` / `get_user_role` in `src/main.py`. -/
inductive Role where
  | admin
  | premium
  | standard
deriving DecidableEq, Repr

/-- Constant `DEFAULT_REQUESTS_PER_MINUTE = 5` (src/main.py line 41). -/
def DEFAULT_REQUESTS_PER_MINUTE : ℕ := 5

/-- Constant `REQUEST_WINDOW = 60` seconds (src/main.py line 42). -/
def REQUEST_WINDOW : ℚ := 60

/-- Function `get_user_role(user_id)` (src/main.py lines 80-82):
`user_roles.get(user_id, "standard")`.  The `user_roles` dict is passed as
an association list `roles`. -/
def get_user_role (roles : List (Int × Role)) (user_id : Int) : Role :=
  match roles.lookup user_id with
  | some r => r
  | none => Role.standard

/-- Function `get_user_rate_limit(user_id)` (src/main.py lines 44-51): 30 for admin,
15 for premium, otherwise `DEFAULT_REQUESTS_PER_MINUTE`. -/
def get_user_rate_limit (roles : List (Int × Role)) (user_id : Int) : ℕ :=
  match get_user_role roles user_id with
  | Role.admin => 30
  | Role.premium => 15
  | Role.standard => DEFAULT_REQUESTS_PER_MINUTE

/-- Function `is_rate_limited(user_id)` (src/main.py lines 53-69), specialised to the
one user's timestamp list `w` (the entry `user_request_times[user_id]`, `[]`
for a fresh user) and the current time `now` (`time.time()`).  Returns the
Python return value (`True` = rejected) together with the new value stored in
`user_request_times[user_id]`: the list is pruned to `now - t < REQUEST_WINDOW`,
and `now` is appended only when the pruned length is below the user's limit. -/
def is_rate_limited (roles : List (Int × Role)) (user_id : Int) (now : ℚ)
    (w : List ℚ) : Bool × List ℚ :=
  let pruned := w.filter (fun t => now - t < REQUEST_WINDOW)
  let user_limit := get_user_rate_limit roles user_id
  if user_limit ≤ pruned.length then
    (true, pruned)
  else
    (false, pruned ++ [now])

/-- Iterate `is_rate_limited` over a chronological list of call times,
starting from the stored window `w`; returns the list of per-call results
(`true` = that call was rejected) and the final stored window. -/
def runCalls (roles : List (Int × Role)) (user_id : Int) (w : List ℚ) :
    List ℚ → List Bool × List ℚ
  | [] => ([], w)
  | now :: rest =>
    let r := is_rate_limited roles user_id now w
    let rec' := runCalls roles user_id r.2 rest
    (r.1 :: rec'.1, rec'.2)

/-- The quota table of spec §4.1, written from the spec's words:
`quotaOf(role)` with fixed table {admin: 30, premium: 15, standard: 5}. -/
def quotaOf : Role → ℕ
  | Role.admin => 30
  | Role.premium => 15
  | Role.standard => 5

/-- JSON values, as decoded by `response.json()` in Python: objects keep
their fields in received order; `true`/`false` decode to Python `bool`. -/
inductive Json where
  | str (s : String)
  | num (q : ℚ)
  | bool (b : Bool)
  | null
  | arr (elems : List Json)
  | obj (fields : List (String × Json))

/-- Lookup `key in d` / `d[key]` / `d.get(key)` on the decoded object, modelled on
the field list (Python dicts have unique keys, so first-match lookup agrees
with dict lookup). -/
def lookupField (fields : List (String × Json)) (key : String) : Option Json :=
  match fields with
  | [] => none
  | (k, v) :: rest => if k = key then some v else lookupField rest key

/-- The fallback scan of src/main.py lines 308-311: the first field, in
received order, whose value is a string longer than 20 characters. -/
def findLongString (fields : List (String × Json)) : Option Json :=
  match fields with
  | [] => none
  | (_, Json.str s) :: rest =>
    if 20 < s.length then some (Json.str s) else findLongString rest
  | _ :: rest => findLongString rest

/-- The outcome of interpreting an upstream response body (spec §4.4).
`text v` carries the JSON value the code would send as the reply body
(the code concatenates it to the header string, which raises `TypeError`
when `v` is not a string — see `ask_ai` below). -/
inductive Outcome where
  | text (v : Json)
  | upstreamError (v : Json)
  | unrecognized

/-- Test `x is False` on an optional dict entry: the entry exists and is exactly
the boolean `False` (Python `is` compares with the `False` singleton, so no
other value qualifies). -/
def isFalseLit : Option Json → Bool
  | some (Json.bool false) => true
  | _ => false

/-- Test `d.get(key) is True`: the entry exists and is exactly the boolean
`True`. -/
def isTrueLit : Option Json → Bool
  | some (Json.bool true) => true
  | _ => false

/-- The entry exists and holds a string (`isinstance(value, str)`), used
only by the spec-side normalizer below. -/
def isStrLit : Option Json → Bool
  | some (Json.str _) => true
  | _ => false

/-- The response normalizer: the `if`/`elif` chain of src/main.py lines
296-317, written over the decoded object's field list.  Branch conditions
are exactly the Python ones:
1. `"success" in d and d["success"] is False and "error" in d` → reply
   with `d["error"]`;
2. `elif "response" in d` → reply with `d["response"]`;
3. `elif "output" in d` → reply with `d["output"]`;
4. `elif "error" in d and d.get("success") is True` → error message with
   `d["error"]`;
5. else the first string field longer than 20 characters, scanning all
   fields in received order;
6. else the raw-data fallback.
Note branches 1-4 test field *presence* only, never that the value is a
string.  (`(… ).getD Json.null` only reads a value whose presence the
condition just established, so the default is never produced.) -/
def normalize (fields : List (String × Json)) : Outcome :=
  if isFalseLit (lookupField fields "success") &&
      (lookupField fields "error").isSome then
    Outcome.text ((lookupField fields "error").getD Json.null)
  else if (lookupField fields "response").isSome then
    Outcome.text ((lookupField fields "response").getD Json.null)
  else if (lookupField fields "output").isSome then
    Outcome.text ((lookupField fields "output").getD Json.null)
  else if (lookupField fields "error").isSome &&
      isTrueLit (lookupField fields "success") then
    Outcome.upstreamError ((lookupField fields "error").getD Json.null)
  else
    match findLongString fields with
    | some v => Outcome.text v
    | none => Outcome.unrecognized

/-- Modelled from the spec's words (§4.4), for comparison with `normalize`:
steps 1-4 additionally require the consumed field's value to be a *string*
("a string `error` field", "a string `response` field", ...). -/
def normalizeSpec (fields : List (String × Json)) : Outcome :=
  if isFalseLit (lookupField fields "success") &&
      isStrLit (lookupField fields "error") then
    Outcome.text ((lookupField fields "error").getD Json.null)
  else if isStrLit (lookupField fields "response") then
    Outcome.text ((lookupField fields "response").getD Json.null)
  else if isStrLit (lookupField fields "output") then
    Outcome.text ((lookupField fields "output").getD Json.null)
  else if isTrueLit (lookupField fields "success") &&
      isStrLit (lookupField fields "error") then
    Outcome.upstreamError ((lookupField fields "error").getD Json.null)
  else
    match findLongString fields with
    | some v => Outcome.text v
    | none => Outcome.unrecognized

/-- The global analytics state (src/main.py lines 87-92).  `defaultdict(int)`
maps are modelled as total functions defaulting to `0`; the plain
`user_first_seen` dict as an `Option`-valued function.  The
`time.strftime("%Y-%m-%d", time.localtime(t))` and
`"%Y-%m-%d-%H"` bucket keys are modelled by the *local* calendar day and
hour indices (days resp. hours since the epoch of `t` shifted by the
process's UTC offset): two times get the same strftime key exactly when
they have the same index, so the maps keyed by strings are isomorphic to
maps keyed by these indices. -/
structure UsageStats where
  total_requests : ℕ
  model_usage_counts : String → ℕ
  user_usage_counts : Int → ℕ
  user_first_seen : Int → Option ℚ
  daily_usage : ℤ → ℕ
  hourly_usage : ℤ → ℕ

/-- All-zero initial state of the module-level counters. -/
def initialStats : UsageStats :=
  ⟨0, fun _ => 0, fun _ => 0, fun _ => none, fun _ => 0, fun _ => 0⟩

/-- The local calendar-day index of epoch time `t` under UTC offset
`tzOffset` (what `time.strftime("%Y-%m-%d", time.localtime(t))` keys by). -/
def localDay (tzOffset t : ℚ) : ℤ := ⌊(t + tzOffset) / 86400⌋

/-- The local hour index of epoch time `t` under UTC offset `tzOffset`
(what `time.strftime("%Y-%m-%d-%H", time.localtime(t))` keys by). -/
def localHour (tzOffset t : ℚ) : ℤ := ⌊(t + tzOffset) / 3600⌋

/-- The UTC calendar-day index of epoch time `t`: what the spec's
"current UTC date bucket" keys by. -/
def utcDay (t : ℚ) : ℤ := ⌊t / 86400⌋

/-- Function `record_usage(user_id, model_id)` (src/main.py lines 94-113).  The
current time `now` (`time.time()`) and the process UTC offset `tzOffset`
(used by `time.localtime`) are explicit parameters.  Increments the total,
per-model, per-user, local-daily and local-hourly counters and sets the
user's first-seen time when absent. -/
def record_usage (tzOffset : ℚ) (user_id : Int) (model_id : String) (now : ℚ)
    (s : UsageStats) : UsageStats where
  total_requests := s.total_requests + 1
  model_usage_counts := fun m =>
    if m = model_id then s.model_usage_counts m + 1 else s.model_usage_counts m
  user_usage_counts := fun u =>
    if u = user_id then s.user_usage_counts u + 1 else s.user_usage_counts u
  user_first_seen := fun u =>
    if u = user_id then some ((s.user_first_seen u).getD now)
    else s.user_first_seen u
  daily_usage := fun d =>
    if d = localDay tzOffset now then s.daily_usage d + 1 else s.daily_usage d
  hourly_usage := fun h =>
    if h = localHour tzOffset now then s.hourly_usage h + 1
    else s.hourly_usage h

/-- Outcome of the `requests.post` call inside the `try` block of `ask_ai`
(src/main.py lines 282-327): a timeout (`requests.exceptions.Timeout`), a
transport-level failure (`requests.exceptions.RequestException`: connection
error, non-2xx via `raise_for_status`, undecodable body), a decoded JSON
object, or any other exception raised inside the `try`. -/
inductive UpstreamResult where
  | timeout
  | requestError (msg : String)
  | ok (body : List (String × Json))
  | otherFailure

/-- One outbound `reply_text` message, abstracted to which of the fixed
message templates of `ask_ai` it instantiates. -/
inductive Reply where
  | rateLimitMsg
  | usageMsg
  | answer (s : String)
  | upstreamErrMsg (v : Json)
  | unrecognizedMsg (body : List (String × Json))
  | timeoutMsg
  | transportErrMsg (msg : String)
  | unexpectedErrMsg

/-- The mutable state `ask_ai` touches for the dispatching user: their entry
in `user_request_times` and the global analytics counters. -/
structure BotState where
  window : List ℚ
  stats : UsageStats

/-- Function `ask_ai(update, context, model_id, model_name)` (src/main.py lines
238-327) for a user with argument list `args` (`context.args`; the prompt is
`" ".join(args)`, so the empty-prompt rejection `if not context.args` is
`args.isEmpty`).  In source order: the admission check (line 244, which
already mutates the stored window), the empty-prompt check (line 260),
`record_usage` (line 274, *before* the upstream call), then the
`requests.post` (line 284) whose outcome is the `upstream` parameter, and
the response handling of `normalize`.  A non-string reply value makes the
`header + value` concatenation raise `TypeError`, caught by the generic
`except Exception` handler (line 325) — hence `unexpectedErrMsg`. -/
def ask_ai (roles : List (Int × Role)) (tzOffset : ℚ) (user_id : Int)
    (model_id : String) (args : List String) (now : ℚ)
    (upstream : UpstreamResult) (st : BotState) : List Reply × BotState :=
  let rl := is_rate_limited roles user_id now st.window
  if rl.1 then
    ([Reply.rateLimitMsg], ⟨rl.2, st.stats⟩)
  else if args.isEmpty then
    ([Reply.usageMsg], ⟨rl.2, st.stats⟩)
  else
    let stats2 := record_usage tzOffset user_id model_id now st.stats
    match upstream with
    | UpstreamResult.timeout => ([Reply.timeoutMsg], ⟨rl.2, stats2⟩)
    | UpstreamResult.requestError m =>
      ([Reply.transportErrMsg m], ⟨rl.2, stats2⟩)
    | UpstreamResult.otherFailure => ([Reply.unexpectedErrMsg], ⟨rl.2, stats2⟩)
    | UpstreamResult.ok body =>
      match normalize body with
      | Outcome.text (Json.str s) => ([Reply.answer s], ⟨rl.2, stats2⟩)
      | Outcome.text _ => ([Reply.unexpectedErrMsg], ⟨rl.2, stats2⟩)
      | Outcome.upstreamError v => ([Reply.upstreamErrMsg v], ⟨rl.2, stats2⟩)
      | Outcome.unrecognized => ([Reply.unrecognizedMsg body], ⟨rl.2, stats2⟩)

theorem get_user_rate_limit_eq_quotaOf (roles : List (Int × Role)) (uid : Int) :
    get_user_rate_limit roles uid = quotaOf (get_user_role roles uid) := by
  unfold get_user_rate_limit quotaOf DEFAULT_REQUESTS_PER_MINUTE
  cases get_user_role roles uid <;> rfl

theorem get_user_rate_limit_pos (roles : List (Int × Role)) (uid : Int) :
    0 < get_user_rate_limit roles uid := by
  unfold get_user_rate_limit DEFAULT_REQUESTS_PER_MINUTE
  cases get_user_role roles uid <;> norm_num

/-- C9: For every user identifier, the role defaults to `standard` when the
user is not in the role table, and the derived per-minute quota is exactly 30
for `admin`, 15 for `premium`, and 5 for `standard`; hence 5 for every unseen
user. -/
theorem role_default_and_quota_table (roles : List (Int × Role)) (uid : Int) :
    (roles.lookup uid = none → get_user_role roles uid = Role.standard) ∧
    get_user_rate_limit roles uid = quotaOf (get_user_role roles uid) ∧
    quotaOf Role.admin = 30 ∧ quotaOf Role.premium = 15 ∧
    quotaOf Role.standard = 5 ∧
    (roles.lookup uid = none → get_user_rate_limit roles uid = 5) := by
  refine ⟨fun h => ?_, get_user_rate_limit_eq_quotaOf roles uid, rfl, rfl, rfl,
    fun h => ?_⟩
  · unfold get_user_role
    rw [h]
  · unfold get_user_rate_limit get_user_role
    rw [h]
    rfl

/-- Closed instance of `role_default_and_quota_table`: user `7` is absent from
the one-entry role table, so their role is `standard` and their quota is 5. -/
theorem role_default_and_quota_table_witness :
    get_user_role [((123456789 : Int), Role.admin)] 7 = Role.standard ∧
    get_user_rate_limit [((123456789 : Int), Role.admin)] 7 = 5 := by
  have h := role_default_and_quota_table [((123456789 : Int), Role.admin)] 7
  exact ⟨h.1 (by decide), h.2.2.2.2.2 (by decide)⟩

/-- Pruning keeps exactly the timestamps `t` with `now - t < 60`. -/
theorem mem_filter_window (now : ℚ) (w : List ℚ) (t : ℚ) :
    t ∈ w.filter (fun t => now - t < REQUEST_WINDOW) ↔
      t ∈ w ∧ now - t < REQUEST_WINDOW := by
  simp [List.mem_filter]

/-- Pruning is the identity when every stored timestamp is in the window. -/
theorem filter_window_eq_self (now : ℚ) (w : List ℚ)
    (h : ∀ t ∈ w, now - t < REQUEST_WINDOW) :
    w.filter (fun t => now - t < REQUEST_WINDOW) = w := by
  rw [List.filter_eq_self]
  intro a ha
  exact decide_eq_true (h a ha)

/-- Pruning empties the list when every stored timestamp is out of the
window. -/
theorem filter_window_eq_nil (now : ℚ) (w : List ℚ)
    (h : ∀ t ∈ w, REQUEST_WINDOW ≤ now - t) :
    w.filter (fun t => now - t < REQUEST_WINDOW) = [] := by
  rw [List.filter_eq_nil_iff]
  intro a ha
  simpa using not_lt.mpr (h a ha)

/-- When the pruned window already reaches the quota, the call is rejected
and only the pruned list is stored. -/
theorem is_rate_limited_of_le (roles : List (Int × Role)) (uid : Int)
    (now : ℚ) (w : List ℚ)
    (h : get_user_rate_limit roles uid ≤
      (w.filter (fun t => now - t < REQUEST_WINDOW)).length) :
    is_rate_limited roles uid now w =
      (true, w.filter (fun t => now - t < REQUEST_WINDOW)) := by
  simp only [is_rate_limited]
  rw [if_pos h]

/-- When the pruned window is below the quota, the call is admitted and `now`
is appended. -/
theorem is_rate_limited_of_lt (roles : List (Int × Role)) (uid : Int)
    (now : ℚ) (w : List ℚ)
    (h : (w.filter (fun t => now - t < REQUEST_WINDOW)).length <
      get_user_rate_limit roles uid) :
    is_rate_limited roles uid now w =
      (false, w.filter (fun t => now - t < REQUEST_WINDOW) ++ [now]) := by
  simp only [is_rate_limited]
  rw [if_neg (Nat.not_le.mpr h)]

/-- C6: after a gap of more than 60 seconds with no calls (every stored
timestamp `t` satisfies `now - t > 60`), the next call is admitted
(`is_rate_limited` returns `false`) no matter how many prior calls were
admitted or rejected, and the window resets to `[now]`. -/
theorem admitted_after_gap (roles : List (Int × Role)) (uid : Int) (now : ℚ)
    (w : List ℚ) (h : ∀ t ∈ w, 60 < now - t) :
    is_rate_limited roles uid now w = (false, [now]) := by
  unfold is_rate_limited
  rw [filter_window_eq_nil now w (fun t ht => le_of_lt (h t ht))]
  simp [Nat.not_le.mpr (get_user_rate_limit_pos roles uid)]

/-- Closed instance of `admitted_after_gap`: two calls 100 and 90 seconds old
are both out of the window, so a user with two prior rejections is admitted
again. -/
theorem admitted_after_gap_witness :
    is_rate_limited [] 0 200 [100, 110] = (false, [200]) :=
  admitted_after_gap [] 0 200 [100, 110] (by
    intro t ht
    fin_cases ht <;> norm_num)

/-- C5: the per-check invariant of the rate window.  Provided the stored
window respects the quota bound on entry (true of every reachable state:
the empty initial window does, and the third conjunct re-establishes it),
after `is_rate_limited` runs: every stored timestamp is inside the 60-second
window, the length is at most the user's quota (hence at most quota + 1 as
the spec states), and a rejecting check stores exactly the pruned list —
no new element is appended, so the result is a sublist of the old window. -/
theorem rate_window_invariant (roles : List (Int × Role)) (uid : Int)
    (now : ℚ) (w : List ℚ)
    (hw : w.length ≤ get_user_rate_limit roles uid) :
    (∀ t ∈ (is_rate_limited roles uid now w).2, now - t < REQUEST_WINDOW) ∧
    (is_rate_limited roles uid now w).2.length ≤
      get_user_rate_limit roles uid + 1 ∧
    (is_rate_limited roles uid now w).2.length ≤ get_user_rate_limit roles uid ∧
    ((is_rate_limited roles uid now w).1 = true →
      (is_rate_limited roles uid now w).2 =
        w.filter (fun t => now - t < REQUEST_WINDOW) ∧
      (is_rate_limited roles uid now w).2.Sublist w) := by
  by_cases hc : get_user_rate_limit roles uid ≤
      (w.filter (fun t => now - t < REQUEST_WINDOW)).length
  · rw [is_rate_limited_of_le roles uid now w hc]
    refine ⟨?_, ?_, ?_, ?_⟩
    · intro t ht
      exact ((mem_filter_window now w t).mp ht).2
    · exact le_trans (le_trans (List.length_filter_le _ w) hw) (Nat.le_succ _)
    · exact le_trans (List.length_filter_le _ w) hw
    · exact fun _ => ⟨rfl, List.filter_sublist w⟩
  · push_neg at hc
    rw [is_rate_limited_of_lt roles uid now w hc]
    refine ⟨?_, ?_, ?_, ?_⟩
    · intro t ht
      rcases List.mem_append.mp ht with ht | ht
      · exact ((mem_filter_window now w t).mp ht).2
      · simp only [List.mem_singleton] at ht
        subst ht
        norm_num [REQUEST_WINDOW]
    · simpa using Nat.succ_le_succ (le_of_lt hc)
    · simpa using hc
    · intro hfalse
      exact absurd hfalse (by simp)

/-- Closed instance of `rate_window_invariant` at quota-full window:
a standard user with 5 in-window timestamps is rejected and the stored
window is unchanged. -/
theorem rate_window_invariant_witness :
    (is_rate_limited [] 0 50 [10, 20, 30, 40, 45]).2 =
        ([10, 20, 30, 40, 45] : List ℚ).filter (fun t => 50 - t < REQUEST_WINDOW) ∧
      (is_rate_limited [] 0 50 [10, 20, 30, 40, 45]).2.Sublist
        ([10, 20, 30, 40, 45] : List ℚ) :=
  (rate_window_invariant [] 0 50 [10, 20, 30, 40, 45]
      (by norm_num [get_user_rate_limit, get_user_role,
        DEFAULT_REQUESTS_PER_MINUTE])).2.2.2
    (by
      rw [is_rate_limited_of_le [] 0 50 [10, 20, 30, 40, 45]
        (by norm_num [REQUEST_WINDOW, get_user_rate_limit, get_user_role,
          DEFAULT_REQUESTS_PER_MINUTE])])

/-- Composing `runCalls` over an appended list of call times. -/
theorem runCalls_append (roles : List (Int × Role)) (uid : Int) (w : List ℚ)
    (a b : List ℚ) :
    runCalls roles uid w (a ++ b) =
      ((runCalls roles uid w a).1 ++
        (runCalls roles uid (runCalls roles uid w a).2 b).1,
       (runCalls roles uid (runCalls roles uid w a).2 b).2) := by
  induction a generalizing w with
  | nil => simp [runCalls]
  | cons x xs ih => simp [runCalls, ih]

/-- As long as the quota is not yet reached, every call in a burst that fits
in one 60-second window is admitted, and the window accumulates all the call
times.  `w` is the stored window on entry; its elements must still be inside
the window at each of the call times. -/
theorem runCalls_all_admitted (roles : List (Int × Role)) (uid : Int)
    (times : List ℚ) (w : List ℚ)
    (hsorted : times.Pairwise (fun s t => s ≤ t ∧ t - s < REQUEST_WINDOW))
    (hw : ∀ x ∈ w, ∀ t ∈ times, t - x < REQUEST_WINDOW)
    (hlen : w.length + times.length ≤ get_user_rate_limit roles uid) :
    runCalls roles uid w times =
      (List.replicate times.length false, w ++ times) := by
  induction times generalizing w with
  | nil => simp [runCalls]
  | cons now rest ih =>
    have hpr : w.filter (fun t => now - t < REQUEST_WINDOW) = w :=
      filter_window_eq_self now w
        (fun x hx => hw x hx now (List.mem_cons_self now rest))
    have hlt : (w.filter (fun t => now - t < REQUEST_WINDOW)).length <
        get_user_rate_limit roles uid := by
      rw [hpr]
      simp only [List.length_cons] at hlen
      omega
    have hrest := (List.pairwise_cons.mp hsorted).2
    have hnow := (List.pairwise_cons.mp hsorted).1
    simp only [runCalls]
    rw [is_rate_limited_of_lt roles uid now w hlt, hpr]
    have hw2 : ∀ x ∈ w ++ [now], ∀ t ∈ rest, t - x < REQUEST_WINDOW := by
      intro x hx t ht
      rcases List.mem_append.mp hx with hx | hx
      · exact hw x hx t (List.mem_cons_of_mem now ht)
      · simp only [List.mem_singleton] at hx
        subst hx
        exact (hnow t ht).2
    have hlen2 : (w ++ [now]).length + rest.length ≤
        get_user_rate_limit roles uid := by
      simp only [List.length_append, List.length_cons, List.length_nil]
        at hlen ⊢
      omega
    rw [ih (w ++ [now]) hrest hw2 hlen2]
    simp [List.replicate_succ]

/-- C3: for a fresh user (empty stored window), any `quota + 1` chronological
calls that all fall inside one 60-second span (`quota` being the user's
rate limit) yield: the first `quota` calls admitted (`is_rate_limited`
returns `false`), the `(quota+1)`-th rejected (`true`), and the final stored
window holds exactly the first `quota` timestamps — the rejected call's
timestamp is not appended. -/
theorem quota_exhaustion (roles : List (Int × Role)) (uid : Int)
    (times : List ℚ)
    (hsorted : times.Pairwise (fun s t => s ≤ t ∧ t - s < REQUEST_WINDOW))
    (hlen : times.length = get_user_rate_limit roles uid + 1) :
    runCalls roles uid [] times =
      (List.replicate (get_user_rate_limit roles uid) false ++ [true],
       times.dropLast) := by
  have hne : times ≠ [] := by
    intro h
    rw [h] at hlen
    simp at hlen
  have hdec : times.dropLast ++ [times.getLast hne] = times :=
    List.dropLast_append_getLast hne
  have hinitlen : times.dropLast.length = get_user_rate_limit roles uid := by
    rw [List.length_dropLast, hlen]
    rfl
  rw [← hdec] at hsorted
  have hpair := List.pairwise_append.mp hsorted
  have hinit := runCalls_all_admitted roles uid times.dropLast []
    hpair.1 (by intro x hx; simp at hx)
    (by rw [hinitlen]; simp)
  conv_lhs => rw [← hdec]
  rw [runCalls_append, hinit]
  have hfil : times.dropLast.filter
      (fun t => times.getLast hne - t < REQUEST_WINDOW) = times.dropLast := by
    apply filter_window_eq_self
    intro x hx
    exact (hpair.2.2 x hx (times.getLast hne) (List.mem_singleton_self _)).2
  have hlast : is_rate_limited roles uid (times.getLast hne) times.dropLast =
      (true, times.dropLast) := by
    rw [is_rate_limited_of_le roles uid (times.getLast hne) times.dropLast
      (by rw [hfil, hinitlen]), hfil]
  simp only [runCalls, hlast, List.nil_append]
  rw [hinitlen]

/-- Closed instance of `quota_exhaustion`: a standard user (quota 5) making
six calls at seconds 0, 10, 20, 30, 40, 50 sees five admissions and one
rejection, and the stored window keeps only the five admitted timestamps. -/
theorem quota_exhaustion_witness :
    runCalls [] 0 [] [0, 10, 20, 30, 40, 50] =
      (List.replicate (get_user_rate_limit [] 0) false ++ [true],
       ([0, 10, 20, 30, 40, 50] : List ℚ).dropLast) :=
  quota_exhaustion [] 0 [0, 10, 20, 30, 40, 50]
    (by norm_num [List.pairwise_cons, REQUEST_WINDOW])
    (by norm_num [get_user_rate_limit, get_user_role,
      DEFAULT_REQUESTS_PER_MINUTE])

/-- Branch 1 of the chain: `success` present and exactly `False`, `error`
present (any value) → the `error` value is sent as the reply text. -/
theorem normalize_quirk (fs : List (String × Json)) (e : Json)
    (h1 : lookupField fs "success" = some (Json.bool false))
    (h2 : lookupField fs "error" = some e) :
    normalize fs = Outcome.text e := by
  unfold normalize
  rw [h1, h2]
  simp [isFalseLit]

/-- Branch 2: branch 1 failed and `response` is present (any value). -/
theorem normalize_response (fs : List (String × Json)) (r : Json)
    (h1 : (isFalseLit (lookupField fs "success") &&
      (lookupField fs "error").isSome) = false)
    (h2 : lookupField fs "response" = some r) :
    normalize fs = Outcome.text r := by
  unfold normalize
  rw [h1, h2]
  simp

/-- Branch 3: branches 1-2 failed and `output` is present (any value). -/
theorem normalize_output (fs : List (String × Json)) (o : Json)
    (h1 : (isFalseLit (lookupField fs "success") &&
      (lookupField fs "error").isSome) = false)
    (h2 : lookupField fs "response" = none)
    (h3 : lookupField fs "output" = some o) :
    normalize fs = Outcome.text o := by
  unfold normalize
  rw [h1, h2, h3]
  simp

/-- Branch 4: branches 1-3 failed, `error` present and `success` exactly
`True` → genuine upstream error. -/
theorem normalize_true_error (fs : List (String × Json)) (e : Json)
    (h1 : lookupField fs "response" = none)
    (h2 : lookupField fs "output" = none)
    (h3 : lookupField fs "success" = some (Json.bool true))
    (h4 : lookupField fs "error" = some e) :
    normalize fs = Outcome.upstreamError e := by
  unfold normalize
  rw [h1, h2, h3, h4]
  simp [isFalseLit, isTrueLit]

/-- Branches 5-6: all explicit branches failed; the first field (in received
order) holding a string longer than 20 characters is the reply, else the
raw-data fallback. -/
theorem normalize_fallback (fs : List (String × Json))
    (h1 : (isFalseLit (lookupField fs "success") &&
      (lookupField fs "error").isSome) = false)
    (h2 : lookupField fs "response" = none)
    (h3 : lookupField fs "output" = none)
    (h4 : ((lookupField fs "error").isSome &&
      isTrueLit (lookupField fs "success")) = false) :
    normalize fs = (match findLongString fs with
      | some v => Outcome.text v
      | none => Outcome.unrecognized) := by
  unfold normalize
  rw [h1, h2, h3]
  simp only [Option.isSome_none, Bool.false_and, Bool.false_eq_true,
    if_false, ite_false]
  rw [if_neg]
  simp [h4]

/-- C2 counterexample: the claim requires branch 2 to fire only on a *string*
`response` field, sending the claimed chain to `Unrecognized` on
`{"response": 42}`; the code tests presence only and replies with the
non-string value (`header + value` then raises `TypeError`, ending in the
generic unexpected-error reply — in no case the claimed `Unrecognized`
outcome with the raw JSON). -/
theorem normalize_stringness_counterexample :
    normalize [("response", Json.num 42)] = Outcome.text (Json.num 42) ∧
    normalizeSpec [("response", Json.num 42)] = Outcome.unrecognized :=
  ⟨rfl, rfl⟩

/-- C2 (amended): `normalize` follows the six-step prioritized resolution
order with first match winning, where steps 1-4 test field *presence*
(step 1: `success == False` and `error` present; step 2: `response`
present; step 3: `output` present; step 4: `error` present and
`success == True`), and step 5 scans all fields in received order for the
first string value longer than 20 characters (step 6: unrecognized). -/
theorem normalize_resolution_order (fs : List (String × Json)) :
    (∀ e, lookupField fs "success" = some (Json.bool false) →
      lookupField fs "error" = some e → normalize fs = Outcome.text e) ∧
    ((isFalseLit (lookupField fs "success") &&
        (lookupField fs "error").isSome) = false →
      ∀ r, lookupField fs "response" = some r →
        normalize fs = Outcome.text r) ∧
    ((isFalseLit (lookupField fs "success") &&
        (lookupField fs "error").isSome) = false →
      lookupField fs "response" = none →
      ∀ o, lookupField fs "output" = some o →
        normalize fs = Outcome.text o) ∧
    (lookupField fs "response" = none → lookupField fs "output" = none →
      ∀ e, lookupField fs "success" = some (Json.bool true) →
        lookupField fs "error" = some e →
        normalize fs = Outcome.upstreamError e) ∧
    ((isFalseLit (lookupField fs "success") &&
        (lookupField fs "error").isSome) = false →
      lookupField fs "response" = none → lookupField fs "output" = none →
      ((lookupField fs "error").isSome &&
        isTrueLit (lookupField fs "success")) = false →
      (∀ v, findLongString fs = some v → normalize fs = Outcome.text v) ∧
      (findLongString fs = none → normalize fs = Outcome.unrecognized)) := by
  refine ⟨fun e h1 h2 => normalize_quirk fs e h1 h2,
    fun h1 r h2 => normalize_response fs r h1 h2,
    fun h1 h2 o h3 => normalize_output fs o h1 h2 h3,
    fun h1 h2 e h3 h4 => normalize_true_error fs e h1 h2 h3 h4,
    fun h1 h2 h3 h4 => ⟨fun v hv => ?_, fun hn => ?_⟩⟩
  · rw [normalize_fallback fs h1 h2 h3 h4, hv]
  · rw [normalize_fallback fs h1 h2 h3 h4, hn]

/-- Closed instance of `normalize_resolution_order`: on
`{"success": true, "error": "rate exceeded"}` branch 4 fires and yields the
genuine upstream error. -/
theorem normalize_resolution_order_witness :
    normalize [("success", Json.bool true), ("error", Json.str "rate exceeded")]
      = Outcome.upstreamError (Json.str "rate exceeded") :=
  (normalize_resolution_order
      [("success", Json.bool true), ("error", Json.str "rate exceeded")]).2.2.2.1
    rfl rfl (Json.str "rate exceeded") rfl rfl

/-- C4: `success == false` together with a *string* `error` field yields
`Text` of the `error` value — the upstream quirk takes precedence over
generic error handling (branch 1 fires before any other). -/
theorem quirk_precedence (fs : List (String × Json)) (s : String)
    (h1 : lookupField fs "success" = some (Json.bool false))
    (h2 : lookupField fs "error" = some (Json.str s)) :
    normalize fs = Outcome.text (Json.str s) :=
  normalize_quirk fs (Json.str s) h1 h2

/-- Closed instance of `quirk_precedence`, the spec's own example:
`normalize({"success": false, "error": "Paris is the capital."})` is
`Text("Paris is the capital.")`. -/
theorem quirk_precedence_witness :
    normalize [("success", Json.bool false),
        ("error", Json.str "Paris is the capital.")] =
      Outcome.text (Json.str "Paris is the capital.") :=
  quirk_precedence
    [("success", Json.bool false), ("error", Json.str "Paris is the capital.")]
    "Paris is the capital." rfl rfl

/-- C7 counterexample: the daily bucket is keyed by the *local* date, not
the UTC date.  In a UTC+1 process at `now = 86399` (23:59:59 UTC on
1970-01-01, already 1970-01-02 locally), `record_usage` leaves the current
UTC date's bucket (day 0) at `0` and increments day 1 instead. -/
theorem record_usage_utc_counterexample :
    (record_usage 3600 1 "openai/gpt-4" 86399 initialStats).daily_usage
        (utcDay 86399) = 0 ∧
    (record_usage 3600 1 "openai/gpt-4" 86399 initialStats).daily_usage
        (localDay 3600 86399) = 1 ∧
    utcDay 86399 = 0 ∧ localDay 3600 86399 = 1 := by
  have hu : utcDay 86399 = 0 := by
    unfold utcDay
    rw [Int.floor_eq_iff]
    constructor <;> norm_num
  have hl : localDay 3600 86399 = 1 := by
    unfold localDay
    rw [Int.floor_eq_iff]
    constructor <;> norm_num
  refine ⟨?_, ?_, hu, hl⟩
  · rw [hu]
    simp [record_usage, initialStats, hl]
  · rw [hl]
    simp [record_usage, initialStats, hl]

/-- C7 (amended): every call to `record_usage` increments the total count,
the per-model count for `model_id`, the per-user count for `user_id`, the
bucket keyed by the current *local* date and the bucket keyed by the current
*local* hour, each by exactly one (all other entries unchanged), and sets the
user's first-seen time to `now` only if it was absent.  (The spec's "UTC"
only holds when the process runs with a UTC offset of zero; see
`record_usage_utc_counterexample`.) -/
theorem record_usage_effect (tzOffset : ℚ) (uid : Int) (mid : String)
    (now : ℚ) (s : UsageStats) :
    (record_usage tzOffset uid mid now s).total_requests =
      s.total_requests + 1 ∧
    (record_usage tzOffset uid mid now s).model_usage_counts mid =
      s.model_usage_counts mid + 1 ∧
    (∀ m, m ≠ mid → (record_usage tzOffset uid mid now s).model_usage_counts m
      = s.model_usage_counts m) ∧
    (record_usage tzOffset uid mid now s).user_usage_counts uid =
      s.user_usage_counts uid + 1 ∧
    (∀ u, u ≠ uid → (record_usage tzOffset uid mid now s).user_usage_counts u
      = s.user_usage_counts u) ∧
    (record_usage tzOffset uid mid now s).daily_usage (localDay tzOffset now)
      = s.daily_usage (localDay tzOffset now) + 1 ∧
    (∀ d, d ≠ localDay tzOffset now →
      (record_usage tzOffset uid mid now s).daily_usage d = s.daily_usage d) ∧
    (record_usage tzOffset uid mid now s).hourly_usage (localHour tzOffset now)
      = s.hourly_usage (localHour tzOffset now) + 1 ∧
    (∀ h, h ≠ localHour tzOffset now →
      (record_usage tzOffset uid mid now s).hourly_usage h
        = s.hourly_usage h) ∧
    (s.user_first_seen uid = none →
      (record_usage tzOffset uid mid now s).user_first_seen uid = some now) ∧
    (∀ t, s.user_first_seen uid = some t →
      (record_usage tzOffset uid mid now s).user_first_seen uid = some t) ∧
    (∀ u, u ≠ uid → (record_usage tzOffset uid mid now s).user_first_seen u
      = s.user_first_seen u) := by
  refine ⟨rfl, by simp [record_usage], fun m hm => by simp [record_usage, hm],
    by simp [record_usage], fun u hu => by simp [record_usage, hu],
    by simp [record_usage], fun d hd => by simp [record_usage, hd],
    by simp [record_usage], fun h hh => by simp [record_usage, hh],
    fun hnone => by simp [record_usage, hnone],
    fun t ht => by simp [record_usage, ht],
    fun u hu => by simp [record_usage, hu]⟩

/-- Closed instance of `record_usage_effect`: recording user 1 on model
`"m"` at time 5 in the fresh state leaves model `"x"`'s count unchanged and
sets user 1's first-seen time to 5. -/
theorem record_usage_effect_witness :
    (record_usage 0 1 "m" 5 initialStats).model_usage_counts "x" =
      initialStats.model_usage_counts "x" ∧
    (record_usage 0 1 "m" 5 initialStats).user_first_seen 1 = some 5 := by
  have h := record_usage_effect 0 1 "m" 5 initialStats
  exact ⟨h.2.2.1 "x" (by decide), h.2.2.2.2.2.2.2.2.2.1 rfl⟩

/-- A rate-limited dispatch replies with the rate-limit message and leaves
the analytics untouched (the window is still pruned by the check). -/
theorem ask_ai_limited (roles : List (Int × Role)) (tzOffset : ℚ)
    (uid : Int) (mid : String) (args : List String) (now : ℚ)
    (upstream : UpstreamResult) (st : BotState)
    (h : (is_rate_limited roles uid now st.window).1 = true) :
    ask_ai roles tzOffset uid mid args now upstream st =
      ([Reply.rateLimitMsg],
       ⟨(is_rate_limited roles uid now st.window).2, st.stats⟩) := by
  simp only [ask_ai, h, if_true]

/-- An admitted dispatch with an empty argument list replies with the usage
message and leaves the analytics untouched; the window keeps the timestamp
the admission check appended. -/
theorem ask_ai_empty_prompt (roles : List (Int × Role)) (tzOffset : ℚ)
    (uid : Int) (mid : String) (now : ℚ) (upstream : UpstreamResult)
    (st : BotState)
    (h : (is_rate_limited roles uid now st.window).1 = false) :
    ask_ai roles tzOffset uid mid [] now upstream st =
      ([Reply.usageMsg],
       ⟨(is_rate_limited roles uid now st.window).2, st.stats⟩) := by
  simp only [ask_ai, h, Bool.false_eq_true, if_false, List.isEmpty_nil,
    if_true]

/-- An admitted dispatch with a non-empty argument list records usage
exactly once — whatever the upstream call does, timeout included — and
sends exactly one reply. -/
theorem ask_ai_dispatched (roles : List (Int × Role)) (tzOffset : ℚ)
    (uid : Int) (mid : String) (args : List String) (now : ℚ)
    (upstream : UpstreamResult) (st : BotState)
    (h1 : (is_rate_limited roles uid now st.window).1 = false)
    (h2 : args ≠ []) :
    (ask_ai roles tzOffset uid mid args now upstream st).2 =
      ⟨(is_rate_limited roles uid now st.window).2,
       record_usage tzOffset uid mid now st.stats⟩ ∧
    (ask_ai roles tzOffset uid mid args now upstream st).1.length = 1 := by
  have hne : args.isEmpty = false := by
    cases args with
    | nil => exact absurd rfl h2
    | cons a l => rfl
  simp only [ask_ai, h1, Bool.false_eq_true, if_false, hne]
  cases upstream with
  | timeout => exact ⟨rfl, rfl⟩
  | requestError m => exact ⟨rfl, rfl⟩
  | otherFailure => exact ⟨rfl, rfl⟩
  | ok body =>
    dsimp only
    cases hn : normalize body with
    | text v => cases v <;> exact ⟨rfl, rfl⟩
    | upstreamError v => exact ⟨rfl, rfl⟩
    | unrecognized => exact ⟨rfl, rfl⟩

/-- An admitted call appends `now` to the pruned window. -/
theorem is_rate_limited_snd_of_false (roles : List (Int × Role)) (uid : Int)
    (now : ℚ) (w : List ℚ)
    (h : (is_rate_limited roles uid now w).1 = false) :
    (is_rate_limited roles uid now w).2 =
      w.filter (fun t => now - t < REQUEST_WINDOW) ++ [now] := by
  by_cases hc : get_user_rate_limit roles uid ≤
      (w.filter (fun t => now - t < REQUEST_WINDOW)).length
  · rw [is_rate_limited_of_le roles uid now w hc] at h
    exact absurd h (by simp)
  · push_neg at hc
    rw [is_rate_limited_of_lt roles uid now w hc]

/-- C1 counterexample: a dispatch that is admitted, has a non-empty prompt
and then *times out* has already called `record_usage`: starting from the
all-zero counters, the total request count ends at 1 even though the
upstream call timed out (the code records at line 274, before the
`requests.post` at line 284).  The claim says such a dispatch never records
usage for that attempt, which would leave the total at 0. -/
theorem timeout_still_records_counterexample :
    (ask_ai [] 0 1 "openai/gpt-4" ["hi"] 0 UpstreamResult.timeout
        ⟨[], initialStats⟩).1 = [Reply.timeoutMsg] ∧
    (ask_ai [] 0 1 "openai/gpt-4" ["hi"] 0 UpstreamResult.timeout
        ⟨[], initialStats⟩).2.stats.total_requests = 1 ∧
    initialStats.total_requests = 0 :=
  ⟨rfl, rfl, rfl⟩

/-- C1 (amended): `record_usage` runs exactly when the dispatch passes the
admission check and the prompt is non-empty — *before* the upstream call,
so a timed-out dispatch has still recorded the attempt; recording never
happens on admission rejection or empty-prompt rejection; and every
dispatch produces exactly one outbound reply. -/
theorem record_placement (roles : List (Int × Role)) (tzOffset : ℚ)
    (uid : Int) (mid : String) (args : List String) (now : ℚ)
    (upstream : UpstreamResult) (st : BotState) :
    ((is_rate_limited roles uid now st.window).1 = true →
      (ask_ai roles tzOffset uid mid args now upstream st).2.stats
        = st.stats) ∧
    ((is_rate_limited roles uid now st.window).1 = false → args = [] →
      (ask_ai roles tzOffset uid mid args now upstream st).2.stats
        = st.stats) ∧
    ((is_rate_limited roles uid now st.window).1 = false → args ≠ [] →
      (ask_ai roles tzOffset uid mid args now upstream st).2.stats =
        record_usage tzOffset uid mid now st.stats) ∧
    (ask_ai roles tzOffset uid mid args now upstream st).1.length = 1 := by
  refine ⟨fun h => ?_, fun h harg => ?_, fun h harg => ?_, ?_⟩
  · rw [ask_ai_limited roles tzOffset uid mid args now upstream st h]
  · subst harg
    rw [ask_ai_empty_prompt roles tzOffset uid mid now upstream st h]
  · rw [(ask_ai_dispatched roles tzOffset uid mid args now upstream st
      h harg).1]
  · by_cases h : (is_rate_limited roles uid now st.window).1 = true
    · rw [ask_ai_limited roles tzOffset uid mid args now upstream st h]
      rfl
    · have hf : (is_rate_limited roles uid now st.window).1 = false := by
        simpa using h
      by_cases hargs : args = []
      · subst hargs
        rw [ask_ai_empty_prompt roles tzOffset uid mid now upstream st hf]
        rfl
      · exact (ask_ai_dispatched roles tzOffset uid mid args now upstream st
          hf hargs).2

/-- Closed instance of `record_placement`: an admitted, non-empty dispatch
whose upstream call succeeds ends with the analytics of one `record_usage`
call. -/
theorem record_placement_witness :
    (ask_ai [] 0 1 "m" ["q"] 0
        (UpstreamResult.ok [("response", Json.str "hello")])
        ⟨[], initialStats⟩).2.stats = record_usage 0 1 "m" 0 initialStats := by
  have h := record_placement [] 0 1 "m" ["q"] 0
    (UpstreamResult.ok [("response", Json.str "hello")]) ⟨[], initialStats⟩
  exact h.2.2.1 rfl (by decide)

/-- C10: an admitted dispatch that is then rejected for an empty prompt
replies with the usage message, leaves the analytics untouched, and keeps in
the stored window the timestamp the admission check appended — the rejected
empty-prompt request still occupies one quota slot, because the admission
check runs before the empty-prompt check. -/
theorem empty_prompt_consumes_slot (roles : List (Int × Role)) (tzOffset : ℚ)
    (uid : Int) (mid : String) (now : ℚ) (upstream : UpstreamResult)
    (st : BotState)
    (h : (is_rate_limited roles uid now st.window).1 = false) :
    (ask_ai roles tzOffset uid mid [] now upstream st).1 = [Reply.usageMsg] ∧
    (ask_ai roles tzOffset uid mid [] now upstream st).2.window =
      st.window.filter (fun t => now - t < REQUEST_WINDOW) ++ [now] ∧
    now ∈ (ask_ai roles tzOffset uid mid [] now upstream st).2.window ∧
    (ask_ai roles tzOffset uid mid [] now upstream st).2.stats = st.stats := by
  rw [ask_ai_empty_prompt roles tzOffset uid mid now upstream st h]
  refine ⟨rfl, ?_, ?_, rfl⟩
  · exact is_rate_limited_snd_of_false roles uid now st.window h
  · rw [show (([Reply.usageMsg],
        (⟨(is_rate_limited roles uid now st.window).2, st.stats⟩ : BotState))
          : List Reply × BotState).2.window =
        (is_rate_limited roles uid now st.window).2 from rfl,
      is_rate_limited_snd_of_false roles uid now st.window h]
    simp

/-- Closed instance of `empty_prompt_consumes_slot`: a fresh user sending an
empty prompt at time 0 gets the usage reply, yet timestamp 0 is stored in
their rate window. -/
theorem empty_prompt_consumes_slot_witness :
    (ask_ai [] 0 1 "m" [] 0 UpstreamResult.timeout
        ⟨[], initialStats⟩).1 = [Reply.usageMsg] ∧
    (0 : ℚ) ∈ (ask_ai [] 0 1 "m" [] 0 UpstreamResult.timeout
        ⟨[], initialStats⟩).2.window := by
  have h := empty_prompt_consumes_slot [] 0 1 "m" 0 UpstreamResult.timeout
    ⟨[], initialStats⟩ rfl
  exact ⟨h.1, h.2.2.1⟩

end Samurai
